import Mathlib

/-!
Shallow embedding of `restful-top2vec/main.py`, a FastAPI service exposing a
pre-trained Top2Vec model over HTTP, together with theorems settling the
specification claims about it.

Python floats carry scores through the handlers without any arithmetic, so the
score carrier is Rat; Python ints are Int. A Python `ValueError` raised by the
wrapped model is an `Except.error` carrying the exception's text.
-/

namespace Top2VecApi

abbrev Score := Rat

/-- `class NumTopics(BaseModel)` of main.py. -/
structure NumTopics where
  num_topics : Int
deriving DecidableEq

/-- `class Topic(BaseModel)` of main.py. -/
structure Topic where
  topic_num : Int
  topic_words : List String
  word_scores : List Score
deriving DecidableEq

/-- `class TopicResult(Topic)` of main.py (inherited fields flattened). -/
structure TopicResult where
  topic_num : Int
  topic_words : List String
  word_scores : List Score
  topic_score : Score
deriving DecidableEq

/-- `class Document(BaseModel)` of main.py. -/
structure Document where
  content : String
  score : Score
  doc_num : Int
deriving DecidableEq

/-- `class KeywordSearch(BaseModel)` of main.py. -/
structure KeywordSearch where
  keywords : List String
  keywords_neg : List String
deriving DecidableEq

/-- `class KeywordSearchDocument(KeywordSearch)` of main.py (fields flattened). -/
structure KeywordSearchDocument where
  keywords : List String
  keywords_neg : List String
  num_docs : Int
deriving DecidableEq

/-- `class KeywordSearchTopic(KeywordSearch)` of main.py (fields flattened). -/
structure KeywordSearchTopic where
  keywords : List String
  keywords_neg : List String
  num_topics : Int
deriving DecidableEq

/-- `class KeywordSearchWord(KeywordSearch)` of main.py (fields flattened). -/
structure KeywordSearchWord where
  keywords : List String
  keywords_neg : List String
  num_words : Int
deriving DecidableEq

/-- `class WordResult(BaseModel)` of main.py. -/
structure WordResult where
  word : String
  score : Score
deriving DecidableEq

/-- The wrapped Top2Vec model handle, abstracted as its method table. The
library itself is external to this repository; each method either returns the
parallel sequences main.py destructures, or raises a ValueError, represented as
`Except.error` holding the exception's text. -/
structure Top2Vec where
  get_num_topics : Int
  get_topics : Int → Except String (List (List String) × List (List Score) × List Int)
  search_topics : List String → Int → List String →
    Except String (List (List String) × List (List Score) × List Score × List Int)
  search_documents_by_topic : Int → Int →
    Except String (List String × List Score × List Int)
  search_documents_by_keyword : List String → Int → List String →
    Except String (List String × List Score × List Int)
  search_documents_by_document : Int → Int →
    Except String (List String × List Score × List Int)
  similar_words : List String → Int → List String →
    Except String (List String × List Score)

/-- `value_error_handler` of main.py: a raised ValueError is turned into a
JSON response with status code 404 and the exception's text as message. -/
structure JSONResponse where
  status_code : Nat
  message : String
deriving DecidableEq

def value_error_handler (exc : String) : JSONResponse :=
  { status_code := 404, message := exc }

/-- `GET /topics/number`: handler `get_number_of_topics` of main.py. -/
def get_number_of_topics (top2vec : Top2Vec) : NumTopics :=
  { num_topics := top2vec.get_num_topics }

/-- `GET /topics/get-topics`: handler `get_topics` of main.py. The Python
`for ... in zip(...)` loop over three parallel sequences is the map over the
(truncating) zip of the three lists. -/
def get_topics (top2vec : Top2Vec) (num_topics : Int) : Except String (List Topic) := do
  let (topic_words, word_scores, topic_nums) ← top2vec.get_topics num_topics
  let topics := (topic_words.zip (word_scores.zip topic_nums)).map
    (fun p => { topic_num := p.2.2, topic_words := p.1, word_scores := p.2.1 })
  return topics

/-- `POST /topics/search`: handler `search_topics_by_keywords` of main.py. -/
def search_topics_by_keywords (top2vec : Top2Vec) (keyword_search : KeywordSearchTopic) :
    Except String (List TopicResult) := do
  let (topic_words, word_scores, topic_scores, topic_nums) ←
    top2vec.search_topics keyword_search.keywords keyword_search.num_topics
      keyword_search.keywords_neg
  let topic_results := (topic_words.zip (word_scores.zip (topic_scores.zip topic_nums))).map
    (fun p => { topic_num := p.2.2.2, topic_words := p.1,
                word_scores := p.2.1, topic_score := p.2.2.1 })
  return topic_results

/-- `GET /documents/search-by-topic`: handler `search_documents_by_topic` of main.py. -/
def search_documents_by_topic (top2vec : Top2Vec) (topic_num : Int) (num_docs : Int) :
    Except String (List Document) := do
  let (docs, doc_scores, doc_nums) ← top2vec.search_documents_by_topic topic_num num_docs
  let documents := (docs.zip (doc_scores.zip doc_nums)).map
    (fun p => { content := p.1, score := p.2.1, doc_num := p.2.2 })
  return documents

/-- `POST /documents/search-by-keyword`: handler `search_documents_by_keywords` of main.py. -/
def search_documents_by_keywords (top2vec : Top2Vec) (keyword_search : KeywordSearchDocument) :
    Except String (List Document) := do
  let (docs, doc_scores, doc_nums) ←
    top2vec.search_documents_by_keyword keyword_search.keywords keyword_search.num_docs
      keyword_search.keywords_neg
  let documents := (docs.zip (doc_scores.zip doc_nums)).map
    (fun p => { content := p.1, score := p.2.1, doc_num := p.2.2 })
  return documents

/-- `POST /documents/search-by-document`: handler `search_documents_by_document` of main.py. -/
def search_documents_by_document (top2vec : Top2Vec) (doc_num : Int) (num_docs : Int) :
    Except String (List Document) := do
  let (docs, doc_scores, doc_nums) ← top2vec.search_documents_by_document doc_num num_docs
  let documents := (docs.zip (doc_scores.zip doc_nums)).map
    (fun p => { content := p.1, score := p.2.1, doc_num := p.2.2 })
  return documents

/-- `POST /words/find-similar`: handler `find_similar_words` of main.py. -/
def find_similar_words (top2vec : Top2Vec) (keyword_search : KeywordSearchWord) :
    Except String (List WordResult) := do
  let (words, word_scores) ←
    top2vec.similar_words keyword_search.keywords keyword_search.num_words
      keyword_search.keywords_neg
  let word_results := (words.zip word_scores).map
    (fun p => { word := p.1, score := p.2 })
  return word_results

/-- An HTTP request to one of main.py's seven endpoints, carrying the
query parameters or validated request body the handler receives. -/
inductive Request where
  | getNumberOfTopics
  | getTopics (num_topics : Int)
  | searchTopicsByKeywords (body : KeywordSearchTopic)
  | searchDocumentsByTopic (topic_num : Int) (num_docs : Int)
  | searchDocumentsByKeywords (body : KeywordSearchDocument)
  | searchDocumentsByDocument (doc_num : Int) (num_docs : Int)
  | findSimilarWords (body : KeywordSearchWord)
deriving DecidableEq

/-- The possible JSON payloads of a successful response, one per
`response_model` occurring in main.py. -/
inductive Payload where
  | numTopics (v : NumTopics)
  | topics (v : List Topic)
  | topicResults (v : List TopicResult)
  | documents (v : List Document)
  | wordResults (v : List WordResult)
deriving DecidableEq

/-- An HTTP response: either a 200 with a JSON payload, or the JSON error
response produced by an exception handler. -/
inductive Response where
  | ok (payload : Payload)
  | err (resp : JSONResponse)
deriving DecidableEq

/-- Dispatch a request to its handler, before exception translation: the
in-flight ValueError is still an `Except.error`. -/
def dispatch (top2vec : Top2Vec) : Request → Except String Payload
  | .getNumberOfTopics => .ok (.numTopics (get_number_of_topics top2vec))
  | .getTopics num_topics => (get_topics top2vec num_topics).map .topics
  | .searchTopicsByKeywords body =>
      (search_topics_by_keywords top2vec body).map .topicResults
  | .searchDocumentsByTopic topic_num num_docs =>
      (search_documents_by_topic top2vec topic_num num_docs).map .documents
  | .searchDocumentsByKeywords body =>
      (search_documents_by_keywords top2vec body).map .documents
  | .searchDocumentsByDocument doc_num num_docs =>
      (search_documents_by_document top2vec doc_num num_docs).map .documents
  | .findSimilarWords body =>
      (find_similar_words top2vec body).map .wordResults

/-- One full request/response cycle of the FastAPI app: run the handler; a
raised ValueError is caught by `value_error_handler`. The process state (the
module-level `top2vec` handle) is returned alongside the response. -/
def handleRequest (top2vec : Top2Vec) (req : Request) : Top2Vec × Response :=
  (top2vec,
    match dispatch top2vec req with
    | .ok payload => .ok payload
    | .error exc => .err (value_error_handler exc))

/-- The process state after serving a sequence of requests. -/
def runRequests (top2vec : Top2Vec) : List Request → Top2Vec
  | [] => top2vec
  | req :: reqs => runRequests (handleRequest top2vec req).1 reqs

/-- The model-method call a request triggers, reduced to its error outcome:
`some exc` when the wrapped model raises a ValueError with text `exc`,
`none` when it succeeds. `GET /topics/number` calls no fallible method. -/
def modelError (top2vec : Top2Vec) : Request → Option String
  | .getNumberOfTopics => none
  | .getTopics num_topics =>
      match top2vec.get_topics num_topics with
      | .ok _ => none
      | .error exc => some exc
  | .searchTopicsByKeywords body =>
      match top2vec.search_topics body.keywords body.num_topics body.keywords_neg with
      | .ok _ => none
      | .error exc => some exc
  | .searchDocumentsByTopic topic_num num_docs =>
      match top2vec.search_documents_by_topic topic_num num_docs with
      | .ok _ => none
      | .error exc => some exc
  | .searchDocumentsByKeywords body =>
      match top2vec.search_documents_by_keyword body.keywords body.num_docs body.keywords_neg with
      | .ok _ => none
      | .error exc => some exc
  | .searchDocumentsByDocument doc_num num_docs =>
      match top2vec.search_documents_by_document doc_num num_docs with
      | .ok _ => none
      | .error exc => some exc
  | .findSimilarWords body =>
      match top2vec.similar_words body.keywords body.num_words body.keywords_neg with
      | .ok _ => none
      | .error exc => some exc

/-- A small concrete model instance used to exercise the theorems: two topics,
three documents, four vocabulary words. Out-of-range topic and document
numbers raise a ValueError, as the real library does. -/
def demoModel : Top2Vec where
  get_num_topics := 2
  get_topics := fun num_topics =>
    if 0 ≤ num_topics ∧ num_topics ≤ 2 then
      .ok ((([["alpha", "beta"], ["gamma", "delta"]].take num_topics.toNat),
            ([[9, 7], [8, 6]].take num_topics.toNat),
            ([0, 1].take num_topics.toNat)))
    else .error "num_topics is larger than the number of topics"
  search_topics := fun _ num_topics _ =>
    if 0 ≤ num_topics ∧ num_topics ≤ 2 then
      .ok ((([["alpha", "beta"], ["gamma", "delta"]].take num_topics.toNat),
            ([[9, 7], [8, 6]].take num_topics.toNat),
            ([5, 4].take num_topics.toNat),
            ([0, 1].take num_topics.toNat)))
    else .error "num_topics is larger than the number of topics"
  search_documents_by_topic := fun topic_num num_docs =>
    if 0 ≤ topic_num ∧ topic_num < 2 then
      .ok ((["doc a", "doc b", "doc c"].take num_docs.toNat),
           ([3, 2, 1].take num_docs.toNat),
           ([0, 1, 2].take num_docs.toNat))
    else .error "topic_num is not in the model"
  search_documents_by_keyword := fun _ num_docs _ =>
    .ok ((["doc a", "doc b", "doc c"].take num_docs.toNat),
         ([3, 2, 1].take num_docs.toNat),
         ([0, 1, 2].take num_docs.toNat))
  search_documents_by_document := fun doc_num num_docs =>
    if 0 ≤ doc_num ∧ doc_num < 3 then
      .ok ((["doc a", "doc b", "doc c"].take num_docs.toNat),
           ([3, 2, 1].take num_docs.toNat),
           ([0, 1, 2].take num_docs.toNat))
    else .error "doc_num is not in the model"
  similar_words := fun _ num_words _ =>
    .ok ((["alpha", "beta", "gamma", "delta"].take num_words.toNat),
         ([9, 8, 7].take num_words.toNat))

/-- The pure reshaping step of handler `get_topics`: zip the model's three
parallel sequences into `Topic` objects. -/
def zipTopics (t : List (List String) × List (List Score) × List Int) : List Topic :=
  (t.1.zip (t.2.1.zip t.2.2)).map
    (fun p => { topic_num := p.2.2, topic_words := p.1, word_scores := p.2.1 })

/-- The pure reshaping step of handler `search_topics_by_keywords`. -/
def zipTopicResults (t : List (List String) × List (List Score) × List Score × List Int) :
    List TopicResult :=
  (t.1.zip (t.2.1.zip (t.2.2.1.zip t.2.2.2))).map
    (fun p => { topic_num := p.2.2.2, topic_words := p.1,
                word_scores := p.2.1, topic_score := p.2.2.1 })

/-- The pure reshaping step shared by the three document handlers. -/
def zipDocuments (t : List String × List Score × List Int) : List Document :=
  (t.1.zip (t.2.1.zip t.2.2)).map
    (fun p => { content := p.1, score := p.2.1, doc_num := p.2.2 })

/-- The pure reshaping step of handler `find_similar_words`. -/
def zipWordResults (t : List String × List Score) : List WordResult :=
  (t.1.zip t.2).map (fun p => { word := p.1, score := p.2 })

/-- Modelled from the spec: the Top2Vec library is external to this repository;
by the spec's pass-through contract, invoking `search_topics` with the
negative-keywords argument omitted behaves identically to passing the empty
list. -/
def Top2Vec.search_topics_omitting_neg (top2vec : Top2Vec) (keywords : List String)
    (num_topics : Int) :=
  top2vec.search_topics keywords num_topics []

/-- Modelled from the spec: `search_documents_by_keyword` with the
negative-keywords argument omitted, per the pass-through contract. -/
def Top2Vec.search_documents_by_keyword_omitting_neg (top2vec : Top2Vec)
    (keywords : List String) (num_docs : Int) :=
  top2vec.search_documents_by_keyword keywords num_docs []

/-- Modelled from the spec: `similar_words` with the negative-keywords
argument omitted, per the pass-through contract. -/
def Top2Vec.similar_words_omitting_neg (top2vec : Top2Vec) (keywords : List String)
    (num_words : Int) :=
  top2vec.similar_words keywords num_words []

/-- Handler `search_topics_by_keywords` on a request whose negatives are
omitted entirely: the model method is invoked without that argument. -/
def search_topics_by_keywords_omitting_neg (top2vec : Top2Vec) (keywords : List String)
    (num_topics : Int) : Except String (List TopicResult) := do
  let out ← top2vec.search_topics_omitting_neg keywords num_topics
  return zipTopicResults out

/-- Handler `search_documents_by_keywords` on a request whose negatives are
omitted entirely. -/
def search_documents_by_keywords_omitting_neg (top2vec : Top2Vec) (keywords : List String)
    (num_docs : Int) : Except String (List Document) := do
  let out ← top2vec.search_documents_by_keyword_omitting_neg keywords num_docs
  return zipDocuments out

/-- Handler `find_similar_words` on a request whose negatives are omitted
entirely. -/
def find_similar_words_omitting_neg (top2vec : Top2Vec) (keywords : List String)
    (num_words : Int) : Except String (List WordResult) := do
  let out ← top2vec.similar_words_omitting_neg keywords num_words
  return zipWordResults out

/-- A `KeywordSearchTopic` request body as received on the wire, before schema
validation: every field may be absent. -/
structure RawKeywordSearchTopic where
  keywords : Option (List String)
  keywords_neg : Option (List String)
  num_topics : Option Int
deriving DecidableEq

/-- A `KeywordSearchDocument` request body as received on the wire. -/
structure RawKeywordSearchDocument where
  keywords : Option (List String)
  keywords_neg : Option (List String)
  num_docs : Option Int
deriving DecidableEq

/-- A `KeywordSearchWord` request body as received on the wire. -/
structure RawKeywordSearchWord where
  keywords : Option (List String)
  keywords_neg : Option (List String)
  num_words : Option Int
deriving DecidableEq

/-- Modelled from the spec: the framework's default schema validation (the
spec: malformed JSON and missing fields are handled by the framework, not by
this code). In main.py every field of `KeywordSearchTopic` is declared without
a default, so each is required: a body omitting one is rejected. -/
def validateKeywordSearchTopic (raw : RawKeywordSearchTopic) :
    Except String KeywordSearchTopic :=
  match raw.keywords, raw.keywords_neg, raw.num_topics with
  | some keywords, some keywords_neg, some num_topics =>
      .ok { keywords := keywords, keywords_neg := keywords_neg, num_topics := num_topics }
  | _, _, _ => .error "field required"

/-- Modelled from the spec: framework schema validation of
`KeywordSearchDocument`; every field is declared without a default. -/
def validateKeywordSearchDocument (raw : RawKeywordSearchDocument) :
    Except String KeywordSearchDocument :=
  match raw.keywords, raw.keywords_neg, raw.num_docs with
  | some keywords, some keywords_neg, some num_docs =>
      .ok { keywords := keywords, keywords_neg := keywords_neg, num_docs := num_docs }
  | _, _, _ => .error "field required"

/-- Modelled from the spec: framework schema validation of
`KeywordSearchWord`; every field is declared without a default. -/
def validateKeywordSearchWord (raw : RawKeywordSearchWord) :
    Except String KeywordSearchWord :=
  match raw.keywords, raw.keywords_neg, raw.num_words with
  | some keywords, some keywords_neg, some num_words =>
      .ok { keywords := keywords, keywords_neg := keywords_neg, num_words := num_words }
  | _, _, _ => .error "field required"

/-- The full `POST /topics/search` pipeline: schema validation, then the
handler. A validation failure is the framework's 422 response, produced before
the handler (and hence any model method) runs. -/
def postTopicsSearch (top2vec : Top2Vec) (raw : RawKeywordSearchTopic) : Response :=
  match validateKeywordSearchTopic raw with
  | .error exc => .err { status_code := 422, message := exc }
  | .ok body => (handleRequest top2vec (.searchTopicsByKeywords body)).2

/-- The full `POST /documents/search-by-keyword` pipeline. -/
def postDocumentsSearchByKeyword (top2vec : Top2Vec) (raw : RawKeywordSearchDocument) :
    Response :=
  match validateKeywordSearchDocument raw with
  | .error exc => .err { status_code := 422, message := exc }
  | .ok body => (handleRequest top2vec (.searchDocumentsByKeywords body)).2

/-- The full `POST /words/find-similar` pipeline. -/
def postWordsFindSimilar (top2vec : Top2Vec) (raw : RawKeywordSearchWord) : Response :=
  match validateKeywordSearchWord raw with
  | .error exc => .err { status_code := 422, message := exc }
  | .ok body => (handleRequest top2vec (.findSimilarWords body)).2

/-- Helper: a handler's in-flight outcome is an error exactly when the single
model-method call it makes raises a ValueError, with the same text. -/
theorem dispatch_error_iff (m : Top2Vec) (req : Request) (exc : String) :
    dispatch m req = .error exc ↔ modelError m req = some exc := by
  cases req with
  | getNumberOfTopics => simp [dispatch, modelError]
  | getTopics n =>
      cases h : m.get_topics n <;>
        simp [dispatch, get_topics, modelError, h, Except.map, Bind.bind, Except.bind,
          pure, Except.pure]
  | searchTopicsByKeywords b =>
      cases h : m.search_topics b.keywords b.num_topics b.keywords_neg <;>
        simp [dispatch, search_topics_by_keywords, modelError, h, Except.map,
          Bind.bind, Except.bind, pure, Except.pure]
  | searchDocumentsByTopic t k =>
      cases h : m.search_documents_by_topic t k <;>
        simp [dispatch, search_documents_by_topic, modelError, h, Except.map,
          Bind.bind, Except.bind, pure, Except.pure]
  | searchDocumentsByKeywords b =>
      cases h : m.search_documents_by_keyword b.keywords b.num_docs b.keywords_neg <;>
        simp [dispatch, search_documents_by_keywords, modelError, h, Except.map,
          Bind.bind, Except.bind, pure, Except.pure]
  | searchDocumentsByDocument d k =>
      cases h : m.search_documents_by_document d k <;>
        simp [dispatch, search_documents_by_document, modelError, h, Except.map,
          Bind.bind, Except.bind, pure, Except.pure]
  | findSimilarWords b =>
      cases h : m.similar_words b.keywords b.num_words b.keywords_neg <;>
        simp [dispatch, find_similar_words, modelError, h, Except.map,
          Bind.bind, Except.bind, pure, Except.pure]

/-- Helper: handler `get_topics` is its single model call mapped through the
pure reshaping function. -/
theorem get_topics_eq_map (m : Top2Vec) (num_topics : Int) :
    get_topics m num_topics = (m.get_topics num_topics).map zipTopics := by
  unfold get_topics zipTopics
  cases m.get_topics num_topics <;> rfl

/-- Helper: handler `search_topics_by_keywords` as its single model call
mapped through the pure reshaping function. -/
theorem search_topics_by_keywords_eq_map (m : Top2Vec) (body : KeywordSearchTopic) :
    search_topics_by_keywords m body =
      (m.search_topics body.keywords body.num_topics body.keywords_neg).map
        zipTopicResults := by
  unfold search_topics_by_keywords zipTopicResults
  cases m.search_topics body.keywords body.num_topics body.keywords_neg <;> rfl

/-- Helper: handler `search_documents_by_topic` as its single model call
mapped through the pure reshaping function. -/
theorem search_documents_by_topic_eq_map (m : Top2Vec) (topic_num num_docs : Int) :
    search_documents_by_topic m topic_num num_docs =
      (m.search_documents_by_topic topic_num num_docs).map zipDocuments := by
  unfold search_documents_by_topic zipDocuments
  cases m.search_documents_by_topic topic_num num_docs <;> rfl

/-- Helper: handler `search_documents_by_keywords` as its single model call
mapped through the pure reshaping function. -/
theorem search_documents_by_keywords_eq_map (m : Top2Vec) (body : KeywordSearchDocument) :
    search_documents_by_keywords m body =
      (m.search_documents_by_keyword body.keywords body.num_docs body.keywords_neg).map
        zipDocuments := by
  unfold search_documents_by_keywords zipDocuments
  cases m.search_documents_by_keyword body.keywords body.num_docs body.keywords_neg <;> rfl

/-- Helper: handler `search_documents_by_document` as its single model call
mapped through the pure reshaping function. -/
theorem search_documents_by_document_eq_map (m : Top2Vec) (doc_num num_docs : Int) :
    search_documents_by_document m doc_num num_docs =
      (m.search_documents_by_document doc_num num_docs).map zipDocuments := by
  unfold search_documents_by_document zipDocuments
  cases m.search_documents_by_document doc_num num_docs <;> rfl

/-- Helper: handler `find_similar_words` as its single model call mapped
through the pure reshaping function. -/
theorem find_similar_words_eq_map (m : Top2Vec) (body : KeywordSearchWord) :
    find_similar_words m body =
      (m.similar_words body.keywords body.num_words body.keywords_neg).map
        zipWordResults := by
  unfold find_similar_words zipWordResults
  cases m.similar_words body.keywords body.num_words body.keywords_neg <;> rfl

/-- C1: each of the six endpoint handlers calls exactly one model method with
the arguments supplied in the request, zips the returned parallel sequences
into typed response objects, and returns them as a list — the handler equals
the single model call mapped through a pure zip-and-package function, with no
other computation. -/
theorem handler_single_call_zip (m : Top2Vec) :
    (∀ num_topics, get_topics m num_topics = (m.get_topics num_topics).map zipTopics) ∧
    (∀ body : KeywordSearchTopic, search_topics_by_keywords m body =
      (m.search_topics body.keywords body.num_topics body.keywords_neg).map zipTopicResults) ∧
    (∀ topic_num num_docs, search_documents_by_topic m topic_num num_docs =
      (m.search_documents_by_topic topic_num num_docs).map zipDocuments) ∧
    (∀ body : KeywordSearchDocument, search_documents_by_keywords m body =
      (m.search_documents_by_keyword body.keywords body.num_docs body.keywords_neg).map
        zipDocuments) ∧
    (∀ doc_num num_docs, search_documents_by_document m doc_num num_docs =
      (m.search_documents_by_document doc_num num_docs).map zipDocuments) ∧
    (∀ body : KeywordSearchWord, find_similar_words m body =
      (m.similar_words body.keywords body.num_words body.keywords_neg).map zipWordResults) :=
  ⟨get_topics_eq_map m, search_topics_by_keywords_eq_map m,
   search_documents_by_topic_eq_map m, search_documents_by_keywords_eq_map m,
   search_documents_by_document_eq_map m, find_similar_words_eq_map m⟩

/-- C2: for every request to any endpoint, the response is the exception
handler's 404 carrying the exception's text if and only if the wrapped model
raised a ValueError on that request's single model call; and every error
response the app produces has status 404 — the translation is uniform and is
the only error handling performed. -/
theorem response_404_iff_value_error (m : Top2Vec) (req : Request) :
    (∀ exc, (handleRequest m req).2 = .err (value_error_handler exc) ↔
      modelError m req = some exc) ∧
    (∀ resp, (handleRequest m req).2 = .err resp → resp.status_code = 404) := by
  constructor
  · intro exc
    rw [← dispatch_error_iff]
    unfold handleRequest
    cases h : dispatch m req <;> simp [h, value_error_handler]
  · intro resp hresp
    unfold handleRequest at hresp
    cases h : dispatch m req <;> simp [h, value_error_handler] at hresp
    subst hresp
    rfl

/-- Witness for C2 at a concrete model and request: `GET /topics/get-topics`
with `num_topics = 5` on the two-topic demo model raises a ValueError, and the
response is the 404 carrying its text. -/
theorem response_404_iff_value_error_witness :
    ((handleRequest demoModel (.getTopics 5)).2 =
      .err (value_error_handler "num_topics is larger than the number of topics")) ∧
    ({ status_code := 404,
       message := "num_topics is larger than the number of topics" :
       JSONResponse }).status_code = 404 :=
  ⟨((response_404_iff_value_error demoModel (.getTopics 5)).1 _).mpr (by decide),
   (response_404_iff_value_error demoModel (.getTopics 5)).2 _ (by decide)⟩

/-- C3: for `0 ≤ num_topics ≤` the model's total topic count, when the model
call succeeds with three parallel sequences of length `num_topics` (whose
word lists and score lists have pairwise equal lengths, the spec's parallel-
array parity invariant), `GET /topics/get-topics` returns exactly `num_topics`
Topic entries, each with `topic_words` and `word_scores` of equal length. -/
theorem get_topics_count_and_parity (m : Top2Vec) (num_topics : Int)
    (tw : List (List String)) (ws : List (List Score)) (tn : List Int)
    (hlo : 0 ≤ num_topics) (hhi : num_topics ≤ m.get_num_topics)
    (hcall : m.get_topics num_topics = .ok (tw, ws, tn))
    (hlw : tw.length = num_topics.toNat)
    (hls : ws.length = num_topics.toNat)
    (hln : tn.length = num_topics.toNat)
    (hpar : List.Forall₂ (fun a b => a.length = b.length) tw ws) :
    ∃ topics, get_topics m num_topics = .ok topics ∧
      topics.length = num_topics.toNat ∧
      ∀ t ∈ topics, t.topic_words.length = t.word_scores.length := by
  rw [get_topics_eq_map m num_topics, hcall]
  refine ⟨zipTopics (tw, ws, tn), rfl, ?_, ?_⟩
  · simp [zipTopics, List.length_zip, hlw, hls, hln]
  · intro t ht
    simp only [zipTopics, List.mem_map] at ht
    obtain ⟨p, hp, rfl⟩ := ht
    rw [List.mem_iff_getElem] at hp
    obtain ⟨i, hi, hget⟩ := hp
    have hi1 : i < tw.length := by
      simp only [List.length_zip] at hi; omega
    have hi2 : i < ws.length := by
      simp only [List.length_zip] at hi; omega
    have hi3 : i < tn.length := by
      simp only [List.length_zip] at hi; omega
    have hfst : p.1 = tw[i] := by
      rw [← hget, List.getElem_zip]
    have hsnd : p.2.1 = ws[i] := by
      rw [← hget, List.getElem_zip]
      simp [List.getElem_zip]
    have hparity := (List.forall₂_iff_get.mp hpar).2 i hi1 hi2
    simp only [List.get_eq_getElem] at hparity
    simp only [hfst, hsnd]
    exact hparity

/-- Witness for C3: the demo model with `num_topics = 2` (its full topic
count) returns exactly two topics, each with as many words as scores. -/
theorem get_topics_count_and_parity_witness :
    ∃ topics, get_topics demoModel 2 = .ok topics ∧
      topics.length = (2 : Int).toNat ∧
      ∀ t ∈ topics, t.topic_words.length = t.word_scores.length :=
  get_topics_count_and_parity demoModel 2
    [["alpha", "beta"], ["gamma", "delta"]] [[9, 7], [8, 6]] [0, 1]
    (by decide) (by decide) (by rfl) (by rfl) (by rfl) (by rfl)
    (List.Forall₂.cons rfl (List.Forall₂.cons rfl List.Forall₂.nil))

/-- C4: a request to `/documents/search-by-topic` whose `topic_num` the model
rejects with a ValueError, and a request to `/documents/search-by-document`
whose `doc_num` the model rejects with a ValueError, each produce an HTTP 404
response. -/
theorem out_of_range_yields_404 (m : Top2Vec) (topic_num doc_num num_docs : Int)
    (excT excD : String) :
    (m.search_documents_by_topic topic_num num_docs = .error excT →
      (handleRequest m (.searchDocumentsByTopic topic_num num_docs)).2 =
        .err { status_code := 404, message := excT }) ∧
    (m.search_documents_by_document doc_num num_docs = .error excD →
      (handleRequest m (.searchDocumentsByDocument doc_num num_docs)).2 =
        .err { status_code := 404, message := excD }) := by
  constructor
  · intro h
    simp [handleRequest, dispatch, search_documents_by_topic, h, Except.map,
      Bind.bind, Except.bind, value_error_handler]
  · intro h
    simp [handleRequest, dispatch, search_documents_by_document, h, Except.map,
      Bind.bind, Except.bind, value_error_handler]

/-- Witness for C4: on the demo model, `topic_num = 5` and `doc_num = 7` are
both out of range and both endpoints answer 404. -/
theorem out_of_range_yields_404_witness :
    ((handleRequest demoModel (.searchDocumentsByTopic 5 1)).2 =
      .err { status_code := 404, message := "topic_num is not in the model" }) ∧
    ((handleRequest demoModel (.searchDocumentsByDocument 7 1)).2 =
      .err { status_code := 404, message := "doc_num is not in the model" }) :=
  ⟨(out_of_range_yields_404 demoModel 5 7 1 "topic_num is not in the model"
      "doc_num is not in the model").1 (by rfl),
   (out_of_range_yields_404 demoModel 5 7 1 "topic_num is not in the model"
      "doc_num is not in the model").2 (by rfl)⟩

/-- C5: for every endpoint taking a result-count parameter, when the model
call succeeds and each returned parallel sequence has length at most the
requested count, the returned response list has length at most that count. -/
theorem response_length_le_requested (m : Top2Vec) :
    (∀ num_topics tw ws tn, m.get_topics num_topics = .ok (tw, ws, tn) →
      tw.length ≤ num_topics.toNat → ws.length ≤ num_topics.toNat →
      tn.length ≤ num_topics.toNat →
      ∃ l, get_topics m num_topics = .ok l ∧ l.length ≤ num_topics.toNat) ∧
    (∀ body : KeywordSearchTopic, ∀ tw ws ts tn,
      m.search_topics body.keywords body.num_topics body.keywords_neg = .ok (tw, ws, ts, tn) →
      tw.length ≤ body.num_topics.toNat → ws.length ≤ body.num_topics.toNat →
      ts.length ≤ body.num_topics.toNat → tn.length ≤ body.num_topics.toNat →
      ∃ l, search_topics_by_keywords m body = .ok l ∧ l.length ≤ body.num_topics.toNat) ∧
    (∀ topic_num num_docs ds ss ns,
      m.search_documents_by_topic topic_num num_docs = .ok (ds, ss, ns) →
      ds.length ≤ num_docs.toNat → ss.length ≤ num_docs.toNat → ns.length ≤ num_docs.toNat →
      ∃ l, search_documents_by_topic m topic_num num_docs = .ok l ∧
        l.length ≤ num_docs.toNat) ∧
    (∀ body : KeywordSearchDocument, ∀ ds ss ns,
      m.search_documents_by_keyword body.keywords body.num_docs body.keywords_neg =
        .ok (ds, ss, ns) →
      ds.length ≤ body.num_docs.toNat → ss.length ≤ body.num_docs.toNat →
      ns.length ≤ body.num_docs.toNat →
      ∃ l, search_documents_by_keywords m body = .ok l ∧ l.length ≤ body.num_docs.toNat) ∧
    (∀ doc_num num_docs ds ss ns,
      m.search_documents_by_document doc_num num_docs = .ok (ds, ss, ns) →
      ds.length ≤ num_docs.toNat → ss.length ≤ num_docs.toNat → ns.length ≤ num_docs.toNat →
      ∃ l, search_documents_by_document m doc_num num_docs = .ok l ∧
        l.length ≤ num_docs.toNat) ∧
    (∀ body : KeywordSearchWord, ∀ vs ss,
      m.similar_words body.keywords body.num_words body.keywords_neg = .ok (vs, ss) →
      vs.length ≤ body.num_words.toNat → ss.length ≤ body.num_words.toNat →
      ∃ l, find_similar_words m body = .ok l ∧ l.length ≤ body.num_words.toNat) := by
  have h1 := get_topics_eq_map m
  have h2 := search_topics_by_keywords_eq_map m
  have h3 := search_documents_by_topic_eq_map m
  have h4 := search_documents_by_keywords_eq_map m
  have h5 := search_documents_by_document_eq_map m
  have h6 := find_similar_words_eq_map m
  refine ⟨?_, ?_, ?_, ?_, ?_, ?_⟩
  · intro n tw ws tn hcall b1 b2 b3
    refine ⟨zipTopics (tw, ws, tn), by rw [h1, hcall]; rfl, ?_⟩
    simp only [zipTopics, List.length_map, List.length_zip]
    omega
  · intro body tw ws ts tn hcall b1 b2 b3 b4
    refine ⟨zipTopicResults (tw, ws, ts, tn), by rw [h2, hcall]; rfl, ?_⟩
    simp only [zipTopicResults, List.length_map, List.length_zip]
    omega
  · intro t k ds ss ns hcall b1 b2 b3
    refine ⟨zipDocuments (ds, ss, ns), by rw [h3, hcall]; rfl, ?_⟩
    simp only [zipDocuments, List.length_map, List.length_zip]
    omega
  · intro body ds ss ns hcall b1 b2 b3
    refine ⟨zipDocuments (ds, ss, ns), by rw [h4, hcall]; rfl, ?_⟩
    simp only [zipDocuments, List.length_map, List.length_zip]
    omega
  · intro d k ds ss ns hcall b1 b2 b3
    refine ⟨zipDocuments (ds, ss, ns), by rw [h5, hcall]; rfl, ?_⟩
    simp only [zipDocuments, List.length_map, List.length_zip]
    omega
  · intro body vs ss hcall b1 b2
    refine ⟨zipWordResults (vs, ss), by rw [h6, hcall]; rfl, ?_⟩
    simp only [zipWordResults, List.length_map, List.length_zip]
    omega

/-- Witness for C5: every count-taking endpoint, exercised on the demo model
with a concrete in-range request, returns at most the requested number of
results. -/
theorem response_length_le_requested_witness :
    (∃ l, get_topics demoModel 2 = .ok l ∧ l.length ≤ (2 : Int).toNat) ∧
    (∃ l, search_topics_by_keywords demoModel ⟨["alpha"], [], 2⟩ = .ok l ∧
      l.length ≤ (2 : Int).toNat) ∧
    (∃ l, search_documents_by_topic demoModel 0 2 = .ok l ∧ l.length ≤ (2 : Int).toNat) ∧
    (∃ l, search_documents_by_keywords demoModel ⟨["alpha"], [], 2⟩ = .ok l ∧
      l.length ≤ (2 : Int).toNat) ∧
    (∃ l, search_documents_by_document demoModel 0 2 = .ok l ∧ l.length ≤ (2 : Int).toNat) ∧
    (∃ l, find_similar_words demoModel ⟨["alpha"], [], 3⟩ = .ok l ∧
      l.length ≤ (3 : Int).toNat) :=
  ⟨(response_length_le_requested demoModel).1 2
      [["alpha", "beta"], ["gamma", "delta"]] [[9, 7], [8, 6]] [0, 1]
      (by rfl) (by decide) (by decide) (by decide),
   (response_length_le_requested demoModel).2.1 ⟨["alpha"], [], 2⟩
      [["alpha", "beta"], ["gamma", "delta"]] [[9, 7], [8, 6]] [5, 4] [0, 1]
      (by rfl) (by decide) (by decide) (by decide) (by decide),
   (response_length_le_requested demoModel).2.2.1 0 2
      ["doc a", "doc b"] [3, 2] [0, 1]
      (by rfl) (by decide) (by decide) (by decide),
   (response_length_le_requested demoModel).2.2.2.1 ⟨["alpha"], [], 2⟩
      ["doc a", "doc b"] [3, 2] [0, 1]
      (by rfl) (by decide) (by decide) (by decide),
   (response_length_le_requested demoModel).2.2.2.2.1 0 2
      ["doc a", "doc b"] [3, 2] [0, 1]
      (by rfl) (by decide) (by decide) (by decide),
   (response_length_le_requested demoModel).2.2.2.2.2 ⟨["alpha"], [], 3⟩
      ["alpha", "beta", "gamma"] [9, 8, 7]
      (by rfl) (by decide) (by decide)⟩

/-- C6: for each keyword-search endpoint, a request whose `keywords_neg` is
the empty list produces the same response as the same request with the
negatives omitted entirely: the handler passes `keywords_neg` straight
through, and by the wrapped model's pass-through contract an omitted
negatives argument is the empty list. -/
theorem empty_negatives_eq_omitted (m : Top2Vec) (keywords : List String) (count : Int) :
    search_topics_by_keywords m ⟨keywords, [], count⟩ =
      search_topics_by_keywords_omitting_neg m keywords count ∧
    search_documents_by_keywords m ⟨keywords, [], count⟩ =
      search_documents_by_keywords_omitting_neg m keywords count ∧
    find_similar_words m ⟨keywords, [], count⟩ =
      find_similar_words_omitting_neg m keywords count := by
  refine ⟨?_, ?_, ?_⟩
  · unfold search_topics_by_keywords search_topics_by_keywords_omitting_neg
      Top2Vec.search_topics_omitting_neg zipTopicResults
    cases m.search_topics keywords count [] <;> rfl
  · unfold search_documents_by_keywords search_documents_by_keywords_omitting_neg
      Top2Vec.search_documents_by_keyword_omitting_neg zipDocuments
    cases m.search_documents_by_keyword keywords count [] <;> rfl
  · unfold find_similar_words find_similar_words_omitting_neg
      Top2Vec.similar_words_omitting_neg zipWordResults
    cases m.similar_words keywords count [] <;> rfl

/-- C7: the model handle is process-wide state fixed at startup: no request
handler mutates it, so after any single request — and after any sequence of
requests — the model state equals the startup state. -/
theorem model_state_immutable (m : Top2Vec) (req : Request) (reqs : List Request) :
    (handleRequest m req).1 = m ∧ runRequests m reqs = m := by
  refine ⟨rfl, ?_⟩
  induction reqs with
  | nil => rfl
  | cons r rs ih => exact ih

/-- C8: every request either succeeds fully, with a complete payload equal to
the handler's zipped output, or fails fully with a single 404 error response;
in both cases the model state is unchanged, and the success payload is
exactly the dispatch outcome (no retry, no partial result). -/
theorem request_all_or_nothing (m : Top2Vec) (req : Request) :
    (handleRequest m req).1 = m ∧
    ((∃ payload, (handleRequest m req).2 = .ok payload ∧ dispatch m req = .ok payload) ∨
     (∃ exc, (handleRequest m req).2 = .err { status_code := 404, message := exc } ∧
       dispatch m req = .error exc)) := by
  refine ⟨rfl, ?_⟩
  unfold handleRequest
  cases h : dispatch m req with
  | ok payload => exact .inl ⟨payload, rfl, rfl⟩
  | error exc => exact .inr ⟨exc, rfl, rfl⟩

/-- C9: every zipping handler returns a list whose length is the minimum of
the lengths of the parallel sequences the model returned: surplus elements of
longer sequences are silently dropped, never an error. -/
theorem zipped_response_length_is_min (m : Top2Vec) :
    (∀ num_topics tw ws tn, m.get_topics num_topics = .ok (tw, ws, tn) →
      ∃ l, get_topics m num_topics = .ok l ∧
        l.length = min tw.length (min ws.length tn.length)) ∧
    (∀ body : KeywordSearchTopic, ∀ tw ws ts tn,
      m.search_topics body.keywords body.num_topics body.keywords_neg = .ok (tw, ws, ts, tn) →
      ∃ l, search_topics_by_keywords m body = .ok l ∧
        l.length = min tw.length (min ws.length (min ts.length tn.length))) ∧
    (∀ topic_num num_docs ds ss ns,
      m.search_documents_by_topic topic_num num_docs = .ok (ds, ss, ns) →
      ∃ l, search_documents_by_topic m topic_num num_docs = .ok l ∧
        l.length = min ds.length (min ss.length ns.length)) ∧
    (∀ body : KeywordSearchDocument, ∀ ds ss ns,
      m.search_documents_by_keyword body.keywords body.num_docs body.keywords_neg =
        .ok (ds, ss, ns) →
      ∃ l, search_documents_by_keywords m body = .ok l ∧
        l.length = min ds.length (min ss.length ns.length)) ∧
    (∀ doc_num num_docs ds ss ns,
      m.search_documents_by_document doc_num num_docs = .ok (ds, ss, ns) →
      ∃ l, search_documents_by_document m doc_num num_docs = .ok l ∧
        l.length = min ds.length (min ss.length ns.length)) ∧
    (∀ body : KeywordSearchWord, ∀ vs ss,
      m.similar_words body.keywords body.num_words body.keywords_neg = .ok (vs, ss) →
      ∃ l, find_similar_words m body = .ok l ∧ l.length = min vs.length ss.length) := by
  have h1 := get_topics_eq_map m
  have h2 := search_topics_by_keywords_eq_map m
  have h3 := search_documents_by_topic_eq_map m
  have h4 := search_documents_by_keywords_eq_map m
  have h5 := search_documents_by_document_eq_map m
  have h6 := find_similar_words_eq_map m
  refine ⟨?_, ?_, ?_, ?_, ?_, ?_⟩
  · intro n tw ws tn hcall
    exact ⟨zipTopics (tw, ws, tn), by rw [h1, hcall]; rfl,
      by simp [zipTopics, List.length_zip]⟩
  · intro body tw ws ts tn hcall
    exact ⟨zipTopicResults (tw, ws, ts, tn), by rw [h2, hcall]; rfl,
      by simp [zipTopicResults, List.length_zip]⟩
  · intro t k ds ss ns hcall
    exact ⟨zipDocuments (ds, ss, ns), by rw [h3, hcall]; rfl,
      by simp [zipDocuments, List.length_zip]⟩
  · intro body ds ss ns hcall
    exact ⟨zipDocuments (ds, ss, ns), by rw [h4, hcall]; rfl,
      by simp [zipDocuments, List.length_zip]⟩
  · intro d k ds ss ns hcall
    exact ⟨zipDocuments (ds, ss, ns), by rw [h5, hcall]; rfl,
      by simp [zipDocuments, List.length_zip]⟩
  · intro body vs ss hcall
    exact ⟨zipWordResults (vs, ss), by rw [h6, hcall]; rfl,
      by simp [zipWordResults, List.length_zip]⟩

/-- Witness for C9: the demo model's `similar_words` answers four words but
only three scores for `num_words = 4`; the handler drops the surplus word and
returns min 4 3 = 3 results, and the other five handlers return the minimum
as well. -/
theorem zipped_response_length_is_min_witness :
    (∃ l, get_topics demoModel 2 = .ok l ∧ l.length = min 2 (min 2 2)) ∧
    (∃ l, search_topics_by_keywords demoModel ⟨["alpha"], [], 2⟩ = .ok l ∧
      l.length = min 2 (min 2 (min 2 2))) ∧
    (∃ l, search_documents_by_topic demoModel 0 3 = .ok l ∧
      l.length = min 3 (min 3 3)) ∧
    (∃ l, search_documents_by_keywords demoModel ⟨["alpha"], [], 3⟩ = .ok l ∧
      l.length = min 3 (min 3 3)) ∧
    (∃ l, search_documents_by_document demoModel 0 3 = .ok l ∧
      l.length = min 3 (min 3 3)) ∧
    (∃ l, find_similar_words demoModel ⟨["alpha"], [], 4⟩ = .ok l ∧
      l.length = min 4 3) :=
  ⟨(zipped_response_length_is_min demoModel).1 2
      [["alpha", "beta"], ["gamma", "delta"]] [[9, 7], [8, 6]] [0, 1] (by rfl),
   (zipped_response_length_is_min demoModel).2.1 ⟨["alpha"], [], 2⟩
      [["alpha", "beta"], ["gamma", "delta"]] [[9, 7], [8, 6]] [5, 4] [0, 1] (by rfl),
   (zipped_response_length_is_min demoModel).2.2.1 0 3
      ["doc a", "doc b", "doc c"] [3, 2, 1] [0, 1, 2] (by rfl),
   (zipped_response_length_is_min demoModel).2.2.2.1 ⟨["alpha"], [], 3⟩
      ["doc a", "doc b", "doc c"] [3, 2, 1] [0, 1, 2] (by rfl),
   (zipped_response_length_is_min demoModel).2.2.2.2.1 0 3
      ["doc a", "doc b", "doc c"] [3, 2, 1] [0, 1, 2] (by rfl),
   (zipped_response_length_is_min demoModel).2.2.2.2.2 ⟨["alpha"], [], 4⟩
      ["alpha", "beta", "gamma", "delta"] [9, 8, 7] (by rfl)⟩

/-- C10: in every keyword-search request schema, `keywords_neg` is a required
field with no default: a request body omitting it fails schema validation —
the pipeline answers the framework's 422 for every model, without consulting
the model at all — and is never treated as an empty negative-keyword list. -/
theorem keywords_neg_required (rawT : RawKeywordSearchTopic)
    (rawD : RawKeywordSearchDocument) (rawW : RawKeywordSearchWord) :
    (rawT.keywords_neg = none →
      (∃ exc, validateKeywordSearchTopic rawT = .error exc) ∧
      (∀ m, postTopicsSearch m rawT =
        .err { status_code := 422, message := "field required" }) ∧
      (∀ m₁ m₂, postTopicsSearch m₁ rawT = postTopicsSearch m₂ rawT)) ∧
    (rawD.keywords_neg = none →
      (∃ exc, validateKeywordSearchDocument rawD = .error exc) ∧
      (∀ m, postDocumentsSearchByKeyword m rawD =
        .err { status_code := 422, message := "field required" }) ∧
      (∀ m₁ m₂, postDocumentsSearchByKeyword m₁ rawD = postDocumentsSearchByKeyword m₂ rawD)) ∧
    (rawW.keywords_neg = none →
      (∃ exc, validateKeywordSearchWord rawW = .error exc) ∧
      (∀ m, postWordsFindSimilar m rawW =
        .err { status_code := 422, message := "field required" }) ∧
      (∀ m₁ m₂, postWordsFindSimilar m₁ rawW = postWordsFindSimilar m₂ rawW)) := by
  refine ⟨?_, ?_, ?_⟩
  · intro h
    obtain ⟨ks, kn, nt⟩ := rawT
    cases h
    have hval : ∀ exc, validateKeywordSearchTopic ⟨ks, none, nt⟩ = .error exc ↔
        exc = "field required" := by
      intro exc
      cases ks <;> cases nt <;> simp [validateKeywordSearchTopic, eq_comm]
    refine ⟨⟨"field required", (hval _).mpr rfl⟩, ?_, ?_⟩
    · intro m
      simp [postTopicsSearch, (hval _).mpr rfl]
    · intro m₁ m₂
      simp [postTopicsSearch, (hval _).mpr rfl]
  · intro h
    obtain ⟨ks, kn, nd⟩ := rawD
    cases h
    have hval : ∀ exc, validateKeywordSearchDocument ⟨ks, none, nd⟩ = .error exc ↔
        exc = "field required" := by
      intro exc
      cases ks <;> cases nd <;> simp [validateKeywordSearchDocument, eq_comm]
    refine ⟨⟨"field required", (hval _).mpr rfl⟩, ?_, ?_⟩
    · intro m
      simp [postDocumentsSearchByKeyword, (hval _).mpr rfl]
    · intro m₁ m₂
      simp [postDocumentsSearchByKeyword, (hval _).mpr rfl]
  · intro h
    obtain ⟨ks, kn, nw⟩ := rawW
    cases h
    have hval : ∀ exc, validateKeywordSearchWord ⟨ks, none, nw⟩ = .error exc ↔
        exc = "field required" := by
      intro exc
      cases ks <;> cases nw <;> simp [validateKeywordSearchWord, eq_comm]
    refine ⟨⟨"field required", (hval _).mpr rfl⟩, ?_, ?_⟩
    · intro m
      simp [postWordsFindSimilar, (hval _).mpr rfl]
    · intro m₁ m₂
      simp [postWordsFindSimilar, (hval _).mpr rfl]

/-- Witness for C10: concrete bodies supplying `keywords` and the count but
omitting `keywords_neg` are rejected with the framework's 422 on the demo
model. -/
theorem keywords_neg_required_witness :
    ((∃ exc, validateKeywordSearchTopic ⟨some ["alpha"], none, some 1⟩ = .error exc) ∧
      (∀ m, postTopicsSearch m ⟨some ["alpha"], none, some 1⟩ =
        .err { status_code := 422, message := "field required" }) ∧
      (∀ m₁ m₂, postTopicsSearch m₁ ⟨some ["alpha"], none, some 1⟩ =
        postTopicsSearch m₂ ⟨some ["alpha"], none, some 1⟩)) ∧
    ((∃ exc, validateKeywordSearchDocument ⟨some ["alpha"], none, some 1⟩ = .error exc) ∧
      (∀ m, postDocumentsSearchByKeyword m ⟨some ["alpha"], none, some 1⟩ =
        .err { status_code := 422, message := "field required" }) ∧
      (∀ m₁ m₂, postDocumentsSearchByKeyword m₁ ⟨some ["alpha"], none, some 1⟩ =
        postDocumentsSearchByKeyword m₂ ⟨some ["alpha"], none, some 1⟩)) ∧
    ((∃ exc, validateKeywordSearchWord ⟨some ["alpha"], none, some 1⟩ = .error exc) ∧
      (∀ m, postWordsFindSimilar m ⟨some ["alpha"], none, some 1⟩ =
        .err { status_code := 422, message := "field required" }) ∧
      (∀ m₁ m₂, postWordsFindSimilar m₁ ⟨some ["alpha"], none, some 1⟩ =
        postWordsFindSimilar m₂ ⟨some ["alpha"], none, some 1⟩)) :=
  ⟨(keywords_neg_required ⟨some ["alpha"], none, some 1⟩ ⟨some ["alpha"], none, some 1⟩
      ⟨some ["alpha"], none, some 1⟩).1 rfl,
   (keywords_neg_required ⟨some ["alpha"], none, some 1⟩ ⟨some ["alpha"], none, some 1⟩
      ⟨some ["alpha"], none, some 1⟩).2.1 rfl,
   (keywords_neg_required ⟨some ["alpha"], none, some 1⟩ ⟨some ["alpha"], none, some 1⟩
      ⟨some ["alpha"], none, some 1⟩).2.2 rfl⟩

end Top2VecApi
